import Mathlib

/-!
Shallow embedding of the `HealthInspectFHE` Solidity contract
(`contract HealthInspectFHE is SepoliaConfig`).

Modelling decisions, all taken from the source:

* The external FHE library (`@fhevm/solidity`) is not part of this
  repository; it is modelled at its declared boundary: an `euint32`
  handle is represented by the 32-bit plaintext value it carries,
  `FHE.asEuint32` is trivial encryption of a constant, `FHE.add` is
  wrapping 32-bit addition, and the handle comparison
  `x == FHE.asEuint32(0)` (used only to detect an uninitialised
  aggregate slot) is value equality with zero.  An uninitialised
  Solidity storage slot holds the zero handle.
* `FHE.checkSignatures(requestId, cleartexts, proof)` is an external
  verification that depends only on its three arguments (it is not
  bound to the callback selector); it is modelled as an abstract
  boolean parameter `checkSignatures` threaded through the callbacks.
  A `false` answer is a revert (`invalidProof`).
* `abi.decode(cleartexts, (uint32[]))` is modelled by taking the
  cleartext payload as the mathematical content of the bytes, a list
  of naturals; decoding succeeds iff every element fits in 32 bits,
  and a subsequent out-of-bounds index (`scores[3]` on a shorter
  array) reverts as well; both reverts are `malformedPayload`.
* Solidity 0.8 checked arithmetic: `100 - score` on `uint32` reverts
  on underflow (score > 100); this is the `underflow` error.
* Solidity mappings are total functions with zero-valued defaults;
  a `require` failure reverts the whole call, which is modelled by
  the functions returning `Except Err ContractState` and by `applyTx`
  giving the post-transaction storage (unchanged on revert).
* `block.timestamp` and the oracle-issued request id returned by
  `FHE.requestDecryption` are inputs of the environment, passed as
  explicit arguments (`now`, `reqId`).
-/

namespace HealthInspectFHE

/-- Pointwise update of a Solidity mapping modelled as a total function. -/
def setAt {α : Type} (m : Nat → α) (k : Nat) (v : α) : Nat → α :=
  fun x => if x = k then v else m x

/-- Modulus of the 32-bit machine integers (`uint32` / `euint32`). -/
def UINT32_MOD : Nat := 2 ^ 32

/-- FHE.asEuint32: trivial encryption of a plaintext `uint32` constant. -/
def asEuint32 (n : Nat) : Nat := n % UINT32_MOD

/-- FHE.add on `euint32`: homomorphic wrapping 32-bit addition. -/
def fheAdd (a b : Nat) : Nat := (a + b) % UINT32_MOD

/-- FHE.checkSignatures, abstractly: a verdict on (requestId, cleartexts, proof). -/
abbrev ProofCheck := Nat → List Nat → Nat → Bool

/-- Success of `abi.decode(cleartexts, (uint32[]))`: every element fits in 32 bits. -/
def wellFormed32 (cleartexts : List Nat) : Bool :=
  cleartexts.all (fun x => x < UINT32_MOD)

/-- struct InspectionReport (source lines 8-15). -/
structure InspectionReport where
  encryptedRestaurantId : Nat
  encryptedHygieneScore : Nat
  encryptedFoodSafetyScore : Nat
  encryptedFacilityScore : Nat
  encryptedLocationCode : Nat
  timestamp : Nat
deriving DecidableEq

/-- struct RiskAnalysis (source lines 17-21). -/
structure RiskAnalysis where
  encryptedRiskScore : Nat
  encryptedPriorityLevel : Nat
  isRevealed : Bool
deriving DecidableEq

/-- struct AreaStats (source lines 23-26). -/
structure AreaStats where
  encryptedAvgHygiene : Nat
  encryptedRiskCount : Nat
deriving DecidableEq

/-- The four events declared by the contract (source lines 36-39). -/
inductive Ev where
  | ReportSubmitted (reportId timestamp : Nat)
  | AnalysisRequested (reportId : Nat)
  | RiskIdentified (analysisId : Nat)
  | AnalysisRevealed (analysisId : Nat)
deriving DecidableEq

/-- Revert reasons of the contract, one per `require` / runtime panic. -/
inductive Err where
  | invalidReportId
  | invalidRequest
  | invalidProof
  | malformedPayload
  | invalidAnalysisId
  | alreadyRevealed
  | noDataForArea
  | underflow
deriving DecidableEq

/-- Default value of an `InspectionReport` storage slot. -/
def zeroReport : InspectionReport := ⟨0, 0, 0, 0, 0, 0⟩

/-- Default value of a `RiskAnalysis` storage slot. -/
def zeroAnalysis : RiskAnalysis := ⟨0, 0, false⟩

/-- Default value of an `AreaStats` storage slot. -/
def zeroStats : AreaStats := ⟨0, 0⟩

/-- Contract storage (source lines 28-34), plus the emitted event log. -/
structure ContractState where
  reportCount : Nat
  analysisCount : Nat
  inspectionReports : Nat → InspectionReport
  riskAnalyses : Nat → RiskAnalysis
  areaStatistics : Nat → AreaStats
  requestToReportId : Nat → Nat
  requestToAnalysisId : Nat → Nat
  events : List Ev

/-- Storage right after deployment: counters zero, mappings at defaults. -/
def initialState : ContractState where
  reportCount := 0
  analysisCount := 0
  inspectionReports := fun _ => zeroReport
  riskAnalyses := fun _ => zeroAnalysis
  areaStatistics := fun _ => zeroStats
  requestToReportId := fun _ => 0
  requestToAnalysisId := fun _ => 0
  events := []

/-- submitInspectionReport (source lines 41-58): increments `reportCount`,
stores the report at the new count, emits `ReportSubmitted`.  Never reverts. -/
def submitInspectionReport (restaurantId hygieneScore foodSafetyScore
    facilityScore locationCode : Nat) (now : Nat)
    (s : ContractState) : ContractState :=
  let newCount := s.reportCount + 1
  { s with
    reportCount := newCount
    inspectionReports := setAt s.inspectionReports newCount
      ⟨restaurantId, hygieneScore, foodSafetyScore, facilityScore,
        locationCode, now⟩
    events := s.events ++ [.ReportSubmitted newCount now] }

/-- requestRiskAnalysis (source lines 60-73): requires
`reportId <= reportCount`, sends the report's four ciphertext handles to
the oracle, records `requestToReportId[reqId] = reportId`, emits
`AnalysisRequested`. -/
def requestRiskAnalysis (reportId : Nat) (reqId : Nat)
    (s : ContractState) : Except Err ContractState :=
  if reportId ≤ s.reportCount then
    .ok { s with
      requestToReportId := setAt s.requestToReportId reqId reportId
      events := s.events ++ [.AnalysisRequested reportId] }
  else .error .invalidReportId

/-- Risk arithmetic of the resolver (source lines 92-94). -/
def riskScoreOf (hygieneScore foodSafetyScore facilityScore : Nat) : Nat :=
  (100 - hygieneScore) + (100 - foodSafetyScore) + (100 - facilityScore)

/-- Priority arithmetic of the resolver (source lines 95-96). -/
def priorityLevelOf (riskScore : Nat) : Nat :=
  if 150 < riskScore then 3 else if 100 < riskScore then 2 else 1

/-- State transition of a successful `calculateRiskScore` callback
(source lines 98-125): create the new analysis at `analysisCount + 1`,
lazily initialise the area slot when its hygiene sum is the zero
handle, add the hygiene score to the area sum, and bump the area risk
count when the risk score exceeds 100. -/
def riskResolution (hygieneScore foodSafetyScore facilityScore
    locationCode : Nat) (s : ContractState) : ContractState :=
  let riskScore := riskScoreOf hygieneScore foodSafetyScore facilityScore
  let priorityLevel := priorityLevelOf riskScore
  let newAnalysisCount := s.analysisCount + 1
  let analyses := setAt s.riskAnalyses newAnalysisCount
    ⟨asEuint32 riskScore, asEuint32 priorityLevel, false⟩
  let stats0 := s.areaStatistics
  let stats1 :=
    if (stats0 locationCode).encryptedAvgHygiene = asEuint32 0 then
      setAt stats0 locationCode ⟨asEuint32 0, asEuint32 0⟩
    else stats0
  let stats2 := setAt stats1 locationCode
    { stats1 locationCode with
      encryptedAvgHygiene :=
        fheAdd (stats1 locationCode).encryptedAvgHygiene
          (asEuint32 hygieneScore) }
  let stats3 :=
    if 100 < riskScore then
      setAt stats2 locationCode
        { stats2 locationCode with
          encryptedRiskCount :=
            fheAdd (stats2 locationCode).encryptedRiskCount (asEuint32 1) }
    else stats2
  { s with
    analysisCount := newAnalysisCount
    riskAnalyses := analyses
    areaStatistics := stats3
    events := s.events ++ [.RiskIdentified newAnalysisCount] }

/-- calculateRiskScore callback (source lines 75-126): requires a nonzero
`requestToReportId[requestId]`, verifies the proof, decodes the payload
as `uint32[]` and reads four scores, then applies `riskResolution`.
Note that the source never deletes `requestToReportId[requestId]`. -/
def calculateRiskScore (checkSignatures : ProofCheck) (requestId : Nat)
    (cleartexts : List Nat) (proof : Nat)
    (s : ContractState) : Except Err ContractState :=
  let reportId := s.requestToReportId requestId
  if reportId = 0 then .error .invalidRequest
  else if checkSignatures requestId cleartexts proof = false then
    .error .invalidProof
  else if wellFormed32 cleartexts = false then .error .malformedPayload
  else
    match cleartexts with
    | hygieneScore :: foodSafetyScore :: facilityScore :: locationCode :: _ =>
      if 100 < hygieneScore ∨ 100 < foodSafetyScore ∨ 100 < facilityScore then
        .error .underflow
      else
        .ok (riskResolution hygieneScore foodSafetyScore facilityScore
          locationCode s)
    | _ => .error .malformedPayload

/-- requestAnalysisDecryption (source lines 128-138): requires
`analysisId <= analysisCount` and the analysis not yet revealed, sends
the two ciphertext handles to the oracle, records
`requestToAnalysisId[reqId] = analysisId`. -/
def requestAnalysisDecryption (analysisId : Nat) (reqId : Nat)
    (s : ContractState) : Except Err ContractState :=
  if analysisId ≤ s.analysisCount then
    if (s.riskAnalyses analysisId).isRevealed then .error .alreadyRevealed
    else
      .ok { s with
        requestToAnalysisId := setAt s.requestToAnalysisId reqId analysisId }
  else .error .invalidAnalysisId

/-- decryptAnalysis callback (source lines 140-154): requires a nonzero
`requestToAnalysisId[requestId]`, verifies the proof, decodes the payload
(whose values are then unused), sets `isRevealed` of that analysis to
true, emits `AnalysisRevealed`.  The source neither deletes the pending
entry nor checks whether the analysis was already revealed. -/
def decryptAnalysis (checkSignatures : ProofCheck) (requestId : Nat)
    (cleartexts : List Nat) (proof : Nat)
    (s : ContractState) : Except Err ContractState :=
  let analysisId := s.requestToAnalysisId requestId
  if analysisId = 0 then .error .invalidRequest
  else if checkSignatures requestId cleartexts proof = false then
    .error .invalidProof
  else if wellFormed32 cleartexts = false then .error .malformedPayload
  else
    .ok { s with
      riskAnalyses := setAt s.riskAnalyses analysisId
        { s.riskAnalyses analysisId with isRevealed := true }
      events := s.events ++ [.AnalysisRevealed analysisId] }

/-- requestAreaStats (source lines 156-165): requires the area's hygiene
sum to differ from the zero handle, sends the two area handles to the
oracle, and records `requestToAnalysisId[reqId] = locationCode` — in the
same mapping used by analysis-reveal requests. -/
def requestAreaStats (locationCode : Nat) (reqId : Nat)
    (s : ContractState) : Except Err ContractState :=
  if (s.areaStatistics locationCode).encryptedAvgHygiene = asEuint32 0 then
    .error .noDataForArea
  else
    .ok { s with
      requestToAnalysisId := setAt s.requestToAnalysisId reqId locationCode }

/-- decryptAreaStats callback (source lines 167-179): requires a nonzero
`uint32(requestToAnalysisId[requestId])`, verifies the proof, decodes the
payload, and mutates nothing.  The pending entry is not deleted. -/
def decryptAreaStats (checkSignatures : ProofCheck) (requestId : Nat)
    (cleartexts : List Nat) (proof : Nat)
    (s : ContractState) : Except Err ContractState :=
  let locationCode := s.requestToAnalysisId requestId % UINT32_MOD
  if locationCode = 0 then .error .invalidRequest
  else if checkSignatures requestId cleartexts proof = false then
    .error .invalidProof
  else if wellFormed32 cleartexts = false then .error .malformedPayload
  else .ok s

/-- getReportCount view (source lines 181-183). -/
def getReportCount (s : ContractState) : Nat := s.reportCount

/-- getAnalysisStatus view (source lines 185-187). -/
def getAnalysisStatus (s : ContractState) (analysisId : Nat) : Bool :=
  (s.riskAnalyses analysisId).isRevealed

/-- Post-transaction storage: EVM revert semantics — a call that reverts
leaves storage exactly as it was. -/
def applyTx (f : ContractState → Except Err ContractState)
    (s : ContractState) : ContractState :=
  match f s with
  | .ok s2 => s2
  | .error _ => s

/-- A proof check that accepts everything; used to instantiate the
abstract `FHE.checkSignatures` verdict in concrete scenarios. -/
def trivialCheck : ProofCheck := fun _ _ _ => true

/-! Basic facts about the embedding. -/

/-- Numeric value of the 32-bit modulus. -/
theorem UINT32_MOD_eq : UINT32_MOD = 4294967296 := rfl

/-- Trivial encryption of zero is the zero handle. -/
theorem asEuint32_zero : asEuint32 0 = 0 := rfl

/-- Reading a mapping at the key just written gives the written value. -/
theorem setAt_self {α : Type} (m : Nat → α) (k : Nat) (v : α) :
    setAt m k v k = v := by
  simp [setAt]

/-- Reading a mapping at any other key is unaffected by a write. -/
theorem setAt_ne {α : Type} (m : Nat → α) (k : Nat) (v : α) (x : Nat)
    (hx : x ≠ k) : setAt m k v x = m x := by
  simp [setAt, hx]

/-- A four-score payload with in-range scores decodes as `uint32[]`. -/
theorem wellFormed32_scores (h f c loc : Nat) (hh : h ≤ 100) (hf : f ≤ 100)
    (hc : c ≤ 100) (hloc : loc < UINT32_MOD) :
    wellFormed32 [h, f, c, loc] = true := by
  simp only [wellFormed32, UINT32_MOD, List.all_cons, List.all_nil,
    Bool.and_true, Bool.and_eq_true, decide_eq_true_eq] at *
  omega

/-- A `calculateRiskScore` callback with a live pending entry, an accepted
proof and an in-range four-score payload resolves to `riskResolution`. -/
theorem calculateRiskScore_ok (vp : ProofCheck) (r p : Nat) (h f c loc : Nat)
    (s : ContractState)
    (h1 : s.requestToReportId r ≠ 0)
    (h2 : vp r [h, f, c, loc] p = true)
    (hh : h ≤ 100) (hf : f ≤ 100) (hc : c ≤ 100) (hloc : loc < UINT32_MOD) :
    calculateRiskScore vp r [h, f, c, loc] p s =
      .ok (riskResolution h f c loc s) := by
  have hw := wellFormed32_scores h f c loc hh hf hc hloc
  simp only [calculateRiskScore, h2, hw]
  rw [if_neg h1]
  simp only [Bool.true_eq_false, if_false]
  rw [if_neg (by omega)]

/-- Risk resolution does not touch the report-request correlation table. -/
theorem riskResolution_requestToReportId (h f c loc : Nat) (s : ContractState) :
    (riskResolution h f c loc s).requestToReportId = s.requestToReportId := rfl

/-- Effect of one risk resolution on the target area slot: lazy zero
initialisation, then the homomorphic sum and conditional count bump. -/
theorem riskResolution_area (h f c loc : Nat) (s : ContractState) :
    (riskResolution h f c loc s).areaStatistics loc =
      (let old := if (s.areaStatistics loc).encryptedAvgHygiene = 0
                  then zeroStats else s.areaStatistics loc
       { encryptedAvgHygiene := fheAdd old.encryptedAvgHygiene (asEuint32 h)
         encryptedRiskCount :=
           if 100 < riskScoreOf h f c
           then fheAdd old.encryptedRiskCount (asEuint32 1)
           else old.encryptedRiskCount }) := by
  simp only [riskResolution, asEuint32_zero, zeroStats]
  split_ifs <;> simp [setAt_self]

/-- The analysis a risk resolution stores at the freshly allocated id. -/
theorem riskResolution_analysis (h f c loc : Nat) (s : ContractState) :
    (riskResolution h f c loc s).riskAnalyses (s.analysisCount + 1) =
      ⟨asEuint32 (riskScoreOf h f c),
       asEuint32 (priorityLevelOf (riskScoreOf h f c)), false⟩ := by
  simp [riskResolution, setAt_self]

/-! Concrete scenario states used by the claim-level theorems. -/

/-- One report submitted and one risk decrypt request pending:
request id 5 was issued for report 1. -/
def pendingRiskState : ContractState :=
  { initialState with
    reportCount := 1
    inspectionReports :=
      setAt initialState.inspectionReports 1 ⟨1, 70, 80, 90, 3, 0⟩
    requestToReportId := setAt initialState.requestToReportId 5 1 }

/-- Two reports submitted and two risk decrypt requests pending:
request id 5 for report 1, request id 6 for report 2. -/
def twoPendingState : ContractState :=
  { initialState with
    reportCount := 2
    inspectionReports :=
      setAt (setAt initialState.inspectionReports 1 ⟨1, 70, 80, 90, 3, 0⟩)
        2 ⟨2, 90, 10, 40, 3, 0⟩
    requestToReportId :=
      setAt (setAt initialState.requestToReportId 5 1) 6 2 }

/-- One unrevealed analysis whose id, 1, coincides with a location code
that has area data; no decrypt request is pending yet. -/
def crossPurposeState : ContractState :=
  { initialState with
    analysisCount := 1
    riskAnalyses := setAt initialState.riskAnalyses 1 ⟨230, 3, false⟩
    areaStatistics := setAt initialState.areaStatistics 1 ⟨70, 1⟩ }

/-- A ledger with data for location code 7 (sum 160, one high-risk hit). -/
def areaPendingState : ContractState :=
  { initialState with
    reportCount := 1
    analysisCount := 1
    inspectionReports :=
      setAt initialState.inspectionReports 1 ⟨1, 70, 80, 90, 7, 0⟩
    riskAnalyses := setAt initialState.riskAnalyses 1 ⟨60, 1, false⟩
    areaStatistics := setAt initialState.areaStatistics 7 ⟨160, 1⟩ }

/-- Analysis 1 is already revealed and request id 5 still points at it. -/
def revealedState : ContractState :=
  { initialState with
    analysisCount := 1
    riskAnalyses := setAt initialState.riskAnalyses 1 ⟨45, 1, true⟩
    requestToAnalysisId := setAt initialState.requestToAnalysisId 5 1 }

/-- Area data exists for location code 0 (sum 70). -/
def areaZeroState : ContractState :=
  { initialState with
    areaStatistics := setAt initialState.areaStatistics 0 ⟨70, 0⟩ }

/-! Claim-level theorems. -/

/-- Claim C1 (status: the code contradicts it).  The callbacks never
delete the pending entry: after a successful `calculateRiskScore`
resolution of request id 5, `requestToReportId[5]` still holds report 1,
and a second delivery of the very same callback is accepted again,
creating a duplicate analysis (`analysisCount` reaches 2) instead of
failing with the unknown-or-replayed-request error. -/
theorem c1_replay_not_rejected :
    ∃ s1 s2,
      calculateRiskScore trivialCheck 5 [70, 80, 90, 3] 0 pendingRiskState = .ok s1
        ∧ s1.requestToReportId 5 = 1
        ∧ calculateRiskScore trivialCheck 5 [70, 80, 90, 3] 0 s1 = .ok s2
        ∧ s2.analysisCount = 2 := by
  refine ⟨_, _, rfl, rfl, rfl, rfl⟩

/-- Claim C2 (status: the code contradicts it).  A decrypt request issued
by `requestAreaStats` (purpose AreaStatsReveal, target = location code 1)
is recorded in the shared `requestToAnalysisId` mapping, so the
`decryptAnalysis` callback accepts it and sets the revealed flag of
analysis 1, although no analysis-reveal request for that analysis was
ever dispatched. -/
theorem c2_area_request_reveals_analysis :
    ∃ s1 s2,
      requestAreaStats 1 9 crossPurposeState = .ok s1
        ∧ (s1.riskAnalyses 1).isRevealed = false
        ∧ decryptAnalysis trivialCheck 9 [70, 1] 0 s1 = .ok s2
        ∧ (s2.riskAnalyses 1).isRevealed = true := by
  refine ⟨_, _, rfl, rfl, rfl, rfl⟩

/-- Claim C3, counterexample: on a fresh ledger with no reports at all,
the dispatch `requestRiskAnalysis(0)` succeeds instead of failing with
the unknown-target error, because the guard `reportId <= reportCount`
accepts id 0. -/
theorem c3_zero_id_dispatch_accepted :
    ∃ s', requestRiskAnalysis 0 7 initialState = .ok s' :=
  ⟨_, rfl⟩

/-- Claim C3, amended: dispatching with a target id strictly greater than
`reportCount` fails with the unknown-target error, while target id 0
always passes the guard and records a pending entry with target 0. -/
theorem c3_dispatch_guard (s : ContractState) (reportId reqId : Nat) :
    (s.reportCount < reportId →
      requestRiskAnalysis reportId reqId s = .error .invalidReportId)
    ∧ (∃ s', requestRiskAnalysis 0 reqId s = .ok s'
        ∧ s'.requestToReportId reqId = 0) := by
  constructor
  · intro hgt
    unfold requestRiskAnalysis
    rw [if_neg (by omega)]
  · have hok : requestRiskAnalysis 0 reqId s =
        .ok { s with
          requestToReportId := setAt s.requestToReportId reqId 0
          events := s.events ++ [.AnalysisRequested 0] } := by
      unfold requestRiskAnalysis
      rw [if_pos (Nat.zero_le _)]
    exact ⟨_, hok, by simp [setAt_self]⟩

/-- Claim C3, witness for the amended theorem at a concrete input. -/
theorem c3_dispatch_guard_witness :
    requestRiskAnalysis 1 0 initialState = .error .invalidReportId :=
  (c3_dispatch_guard initialState 1 0).1 (by decide)

/-- Claim C4: for any pending request and accepted proof, resolving with
scores in [0,100] stores an analysis whose risk score is
300 - hygiene - foodSafety - facility and whose priority level is 1 when
the risk score is at most 100, 2 when it lies in (100,150], and 3 when
it exceeds 150. -/
theorem c4_risk_formula (vp : ProofCheck)
    (r p hygiene foodSafety facility loc : Nat) (s : ContractState)
    (hpend : s.requestToReportId r ≠ 0)
    (hsig : vp r [hygiene, foodSafety, facility, loc] p = true)
    (hh : hygiene ≤ 100) (hf : foodSafety ≤ 100) (hc : facility ≤ 100)
    (hloc : loc < UINT32_MOD) :
    ∃ s', calculateRiskScore vp r [hygiene, foodSafety, facility, loc] p s = .ok s'
      ∧ (s'.riskAnalyses (s.analysisCount + 1)).encryptedRiskScore =
          300 - hygiene - foodSafety - facility
      ∧ (s'.riskAnalyses (s.analysisCount + 1)).encryptedPriorityLevel =
          (if 300 - hygiene - foodSafety - facility ≤ 100 then 1
           else if 300 - hygiene - foodSafety - facility ≤ 150 then 2 else 3) := by
  refine ⟨_, calculateRiskScore_ok vp r p hygiene foodSafety facility loc s
    hpend hsig hh hf hc hloc, ?_, ?_⟩
  · rw [riskResolution_analysis]
    simp only [asEuint32, UINT32_MOD_eq, riskScoreOf]
    omega
  · rw [riskResolution_analysis]
    simp only [asEuint32, UINT32_MOD_eq, riskScoreOf, priorityLevelOf]
    split_ifs <;> omega

/-- Claim C4, witness: hygiene 90, food safety 85, facility 80 resolve to
risk score 45 and priority 1. -/
theorem c4_risk_formula_witness :
    ∃ s', calculateRiskScore trivialCheck 5 [90, 85, 80, 3] 0 pendingRiskState = .ok s'
      ∧ (s'.riskAnalyses (pendingRiskState.analysisCount + 1)).encryptedRiskScore =
          300 - 90 - 85 - 80
      ∧ (s'.riskAnalyses (pendingRiskState.analysisCount + 1)).encryptedPriorityLevel =
          (if 300 - 90 - 85 - 80 ≤ 100 then 1
           else if 300 - 90 - 85 - 80 ≤ 150 then 2 else 3) :=
  c4_risk_formula trivialCheck 5 0 90 85 80 3 pendingRiskState (by decide) rfl
    (by decide) (by decide) (by decide) (by decide)

/-- Claim C5: starting from no aggregate for the location code, two
successful risk resolutions with hygiene 70 and 90 leave the area's
hygiene sum at the encrypted representation of 160, and the high-risk
count equals one contribution per resolution whose risk score
exceeds 100. -/
theorem c5_area_aggregate (vp : ProofCheck) (r1 r2 p1 p2 f1 c1 f2 c2 loc : Nat)
    (s : ContractState)
    (hagg : s.areaStatistics loc = zeroStats)
    (hp1 : s.requestToReportId r1 ≠ 0)
    (hp2 : s.requestToReportId r2 ≠ 0)
    (hs1 : vp r1 [70, f1, c1, loc] p1 = true)
    (hs2 : vp r2 [90, f2, c2, loc] p2 = true)
    (hf1 : f1 ≤ 100) (hc1 : c1 ≤ 100) (hf2 : f2 ≤ 100) (hc2 : c2 ≤ 100)
    (hloc : loc < UINT32_MOD) :
    ∃ s1 s2,
      calculateRiskScore vp r1 [70, f1, c1, loc] p1 s = .ok s1
      ∧ calculateRiskScore vp r2 [90, f2, c2, loc] p2 s1 = .ok s2
      ∧ (s2.areaStatistics loc).encryptedAvgHygiene = 160
      ∧ (s2.areaStatistics loc).encryptedRiskCount =
          (if 100 < riskScoreOf 70 f1 c1 then 1 else 0) +
          (if 100 < riskScoreOf 90 f2 c2 then 1 else 0) := by
  have e1 := calculateRiskScore_ok vp r1 p1 70 f1 c1 loc s hp1 hs1
    (by omega) hf1 hc1 hloc
  have hp2' : (riskResolution 70 f1 c1 loc s).requestToReportId r2 ≠ 0 := by
    rw [riskResolution_requestToReportId]; exact hp2
  have e2 := calculateRiskScore_ok vp r2 p2 90 f2 c2 loc
    (riskResolution 70 f1 c1 loc s) hp2' hs2 (by omega) hf2 hc2 hloc
  refine ⟨_, _, e1, e2, ?_, ?_⟩
  · rw [riskResolution_area, riskResolution_area]
    simp only [hagg, zeroStats]
    split_ifs <;> simp_all [fheAdd, asEuint32, UINT32_MOD_eq, zeroStats]
  · rw [riskResolution_area, riskResolution_area]
    simp only [hagg, zeroStats]
    split_ifs <;> simp_all [fheAdd, asEuint32, UINT32_MOD_eq, zeroStats]

/-- Claim C5, witness: reports 1 and 2 of location code 3, hygiene 70
then 90; the second resolution is high-risk, the first is not. -/
theorem c5_area_aggregate_witness :
    ∃ s1 s2,
      calculateRiskScore trivialCheck 5 [70, 80, 90, 3] 0 twoPendingState = .ok s1
      ∧ calculateRiskScore trivialCheck 6 [90, 10, 40, 3] 0 s1 = .ok s2
      ∧ (s2.areaStatistics 3).encryptedAvgHygiene = 160
      ∧ (s2.areaStatistics 3).encryptedRiskCount =
          (if 100 < riskScoreOf 70 80 90 then 1 else 0) +
          (if 100 < riskScoreOf 90 10 40 then 1 else 0) :=
  c5_area_aggregate trivialCheck 5 6 0 0 80 90 10 40 3 twoPendingState rfl
    (by decide) (by decide) rfl rfl (by decide) (by decide) (by decide)
    (by decide) (by decide)

/-- Claim C6 (status: the code contradicts its removal part).  Resolving
an area-stats reveal with a well-formed payload leaves every entity
table and both counters unchanged, but the pending entry for request
id 5 is also left in place (`requestToAnalysisId[5]` still holds 7)
instead of being removed. -/
theorem c6_pending_entry_not_removed :
    ∃ s1 s2,
      requestAreaStats 7 5 areaPendingState = .ok s1
        ∧ decryptAreaStats trivialCheck 5 [160, 1] 0 s1 = .ok s2
        ∧ s2.reportCount = areaPendingState.reportCount
        ∧ s2.analysisCount = areaPendingState.analysisCount
        ∧ s2.inspectionReports = areaPendingState.inspectionReports
        ∧ s2.riskAnalyses = areaPendingState.riskAnalyses
        ∧ s2.areaStatistics = areaPendingState.areaStatistics
        ∧ s2.requestToAnalysisId 5 = 7 := by
  refine ⟨_, _, rfl, rfl, rfl, rfl, rfl, rfl, rfl, rfl⟩

/-- Claim C7: `submitInspectionReport` stores the new report exactly at
id `reportCount + 1` (never 0) and touches no other report slot, and a
successful `calculateRiskScore` resolution stores the new, unrevealed
analysis exactly at id `analysisCount + 1` (never 0) and touches no
other analysis slot; hence ids are allocated uniquely and strictly
increasing from 1. -/
theorem c7_sequential_ids (s : ContractState) :
    (∀ rid hyg fs fc loc now,
        (submitInspectionReport rid hyg fs fc loc now s).reportCount = s.reportCount + 1
        ∧ s.reportCount + 1 ≠ 0
        ∧ (submitInspectionReport rid hyg fs fc loc now s).inspectionReports
            (s.reportCount + 1) = ⟨rid, hyg, fs, fc, loc, now⟩
        ∧ ∀ i, i ≠ s.reportCount + 1 →
            (submitInspectionReport rid hyg fs fc loc now s).inspectionReports i =
              s.inspectionReports i)
    ∧ (∀ vp r cts p s', calculateRiskScore vp r cts p s = .ok s' →
        s'.analysisCount = s.analysisCount + 1
        ∧ s.analysisCount + 1 ≠ 0
        ∧ (s'.riskAnalyses (s.analysisCount + 1)).isRevealed = false
        ∧ ∀ i, i ≠ s.analysisCount + 1 → s'.riskAnalyses i = s.riskAnalyses i) := by
  constructor
  · intro rid hyg fs fc loc now
    refine ⟨rfl, by omega, ?_, ?_⟩
    · simp [submitInspectionReport, setAt_self]
    · intro i hi
      simp [submitInspectionReport, setAt_ne _ _ _ _ hi]
  · intro vp r cts p s' hok
    simp only [calculateRiskScore] at hok
    repeat' split at hok
    any_goals exact Except.noConfusion hok
    injection hok with hok
    subst hok
    refine ⟨rfl, by omega, ?_, ?_⟩
    · rw [riskResolution_analysis]
    · intro i hi
      simp only [riskResolution]
      exact setAt_ne _ _ _ _ hi

/-- Claim C7, witness: submitting on a fresh ledger leaves slot 2 alone,
and resolving the pending risk request allocates analysis 1. -/
theorem c7_sequential_ids_witness :
    (submitInspectionReport 1 70 80 90 3 0 initialState).inspectionReports 2 =
      initialState.inspectionReports 2
    ∧ ∃ s', calculateRiskScore trivialCheck 5 [70, 80, 90, 3] 0 pendingRiskState = .ok s'
        ∧ s'.analysisCount = pendingRiskState.analysisCount + 1 :=
  ⟨((c7_sequential_ids initialState).1 1 70 80 90 3 0).2.2.2 2 (by decide),
   ⟨_, rfl, ((c7_sequential_ids pendingRiskState).2 trivialCheck 5
      [70, 80, 90, 3] 0 _ rfl).1⟩⟩

/-- Claim C8, counterexample: with analysis 1 already revealed and
request id 5 pointing at it, `decryptAnalysis` succeeds instead of
failing with the already-revealed error. -/
theorem c8_callback_reveal_accepted :
    ∃ s', decryptAnalysis trivialCheck 5 [45, 1] 0 revealedState = .ok s' :=
  ⟨_, rfl⟩

/-- Claim C8, amended: the dispatch path `requestAnalysisDecryption`
fails with the already-revealed error on a revealed analysis, while the
callback path `decryptAnalysis` performs no such check: it succeeds on
an already-revealed analysis and merely leaves the flag true. -/
theorem c8_already_revealed_guard :
    (∀ (s : ContractState) (analysisId reqId : Nat),
        analysisId ≤ s.analysisCount →
        (s.riskAnalyses analysisId).isRevealed = true →
        requestAnalysisDecryption analysisId reqId s = .error .alreadyRevealed)
    ∧ (∀ (vp : ProofCheck) (r : Nat) (cts : List Nat) (p : Nat)
        (s : ContractState),
        s.requestToAnalysisId r ≠ 0 →
        (s.riskAnalyses (s.requestToAnalysisId r)).isRevealed = true →
        vp r cts p = true →
        wellFormed32 cts = true →
        ∃ s', decryptAnalysis vp r cts p s = .ok s'
          ∧ (s'.riskAnalyses (s.requestToAnalysisId r)).isRevealed = true) := by
  constructor
  · intro s analysisId reqId hle hrev
    unfold requestAnalysisDecryption
    rw [if_pos hle, if_pos hrev]
  · intro vp r cts p s hne hrev hsig hwf
    have hok : decryptAnalysis vp r cts p s =
        .ok { s with
          riskAnalyses := setAt s.riskAnalyses (s.requestToAnalysisId r)
            { s.riskAnalyses (s.requestToAnalysisId r) with isRevealed := true }
          events := s.events ++ [.AnalysisRevealed (s.requestToAnalysisId r)] } := by
      unfold decryptAnalysis
      rw [if_neg hne, if_neg (by simp [hsig]), if_neg (by simp [hwf])]
    exact ⟨_, hok, by simp [setAt_self]⟩

/-- Claim C8, witness for the amended theorem at a concrete input. -/
theorem c8_already_revealed_guard_witness :
    requestAnalysisDecryption 1 6 revealedState = .error .alreadyRevealed
    ∧ ∃ s', decryptAnalysis trivialCheck 5 [45, 1] 0 revealedState = .ok s'
        ∧ (s'.riskAnalyses (revealedState.requestToAnalysisId 5)).isRevealed = true :=
  ⟨c8_already_revealed_guard.1 revealedState 1 6 (by decide) (by decide),
   c8_already_revealed_guard.2 trivialCheck 5 [45, 1] 0 revealedState
     (by decide) (by decide) rfl (by decide)⟩

/-- Claim C9: whenever any of the six fallible entry points reverts, the
post-transaction storage is exactly the pre-call storage: no failed call
is partially applied. -/
theorem c9_atomic_failures (s : ContractState) (vp : ProofCheck)
    (a b p : Nat) (cts : List Nat) (e : Err) :
    (requestRiskAnalysis a b s = .error e →
      applyTx (requestRiskAnalysis a b) s = s)
    ∧ (calculateRiskScore vp a cts p s = .error e →
      applyTx (calculateRiskScore vp a cts p) s = s)
    ∧ (requestAnalysisDecryption a b s = .error e →
      applyTx (requestAnalysisDecryption a b) s = s)
    ∧ (decryptAnalysis vp a cts p s = .error e →
      applyTx (decryptAnalysis vp a cts p) s = s)
    ∧ (requestAreaStats a b s = .error e →
      applyTx (requestAreaStats a b) s = s)
    ∧ (decryptAreaStats vp a cts p s = .error e →
      applyTx (decryptAreaStats vp a cts p) s = s) := by
  refine ⟨?_, ?_, ?_, ?_, ?_, ?_⟩ <;> intro h <;> simp [applyTx, h]

/-- Claim C9, witness: a failing dispatch leaves the fresh ledger as it
was. -/
theorem c9_atomic_failures_witness :
    applyTx (requestRiskAnalysis 1 0) initialState = initialState :=
  (c9_atomic_failures initialState trivialCheck 1 0 0 [] .invalidReportId).1 rfl

/-- Claim C10: dispatching `requestRiskAnalysis(0)` always succeeds and
records target 0; `requestAreaStats(0)` succeeds whenever area 0 has
data and records target 0; and each callback rejects a request whose
recorded target is 0 with the invalid-request error, so such requests
can never be resolved. -/
theorem c10_zero_target_never_resolvable (s : ContractState)
    (reqId p : Nat) (vp : ProofCheck) (cts : List Nat) :
    (∃ s', requestRiskAnalysis 0 reqId s = .ok s'
        ∧ s'.requestToReportId reqId = 0)
    ∧ (s.requestToReportId reqId = 0 →
        calculateRiskScore vp reqId cts p s = .error .invalidRequest)
    ∧ ((s.areaStatistics 0).encryptedAvgHygiene ≠ 0 →
        ∃ s', requestAreaStats 0 reqId s = .ok s'
          ∧ s'.requestToAnalysisId reqId = 0)
    ∧ (s.requestToAnalysisId reqId = 0 →
        decryptAreaStats vp reqId cts p s = .error .invalidRequest) := by
  refine ⟨?_, ?_, ?_, ?_⟩
  · have hok : requestRiskAnalysis 0 reqId s =
        .ok { s with
          requestToReportId := setAt s.requestToReportId reqId 0
          events := s.events ++ [.AnalysisRequested 0] } := by
      unfold requestRiskAnalysis
      rw [if_pos (Nat.zero_le _)]
    exact ⟨_, hok, by simp [setAt_self]⟩
  · intro h
    simp [calculateRiskScore, h]
  · intro h
    have hok : requestAreaStats 0 reqId s =
        .ok { s with
          requestToAnalysisId := setAt s.requestToAnalysisId reqId 0 } := by
      unfold requestAreaStats
      rw [if_neg (by simpa [asEuint32_zero] using h)]
    exact ⟨_, hok, by simp [setAt_self]⟩
  · intro h
    simp [decryptAreaStats, h]

/-- Claim C10, witness at a concrete state with area data for code 0. -/
theorem c10_zero_target_never_resolvable_witness :
    (∃ s', requestAreaStats 0 11 areaZeroState = .ok s'
        ∧ s'.requestToAnalysisId 11 = 0)
    ∧ calculateRiskScore trivialCheck 11 [70, 80, 90, 3] 0 areaZeroState =
        .error .invalidRequest
    ∧ decryptAreaStats trivialCheck 11 [70, 0] 0 areaZeroState =
        .error .invalidRequest :=
  ⟨(c10_zero_target_never_resolvable areaZeroState 11 0 trivialCheck
      [70, 0]).2.2.1 (by decide),
   (c10_zero_target_never_resolvable areaZeroState 11 0 trivialCheck
      [70, 80, 90, 3]).2.1 rfl,
   (c10_zero_target_never_resolvable areaZeroState 11 0 trivialCheck
      [70, 0]).2.2.2 rfl⟩

end HealthInspectFHE
